import Mathlib

/-
  Verification of the options-income-screener scoring and screening core.

  The scoring and screening algorithms are embedded from the Python-style
  pseudo-code recorded in src/SCREENING_ALGORITHM.md (v2.1), updated with the
  later algorithm changes the repository records:
    * v2.3 (src/unnamed/part_008): tiered earnings penalty in score_cc.py /
      score_csp.py, replacing the flat near-earnings factor;
    * v2.7 (src/DEPLOYMENT_v2.7.md, src/unnamed/part_006): contrarian
      sentiment factor in score_cc.py / score_csp.py and the contrarian
      signal derivation.
  The Node dashboard database layer is embedded from
  src/node_ui/src/routes/picks.js and src/unnamed/part_001 (db.js).
  All machine floats are modelled as exact rationals.
-/

/-- Clamp a value onto [0, 1], the final step of both scoring functions. -/
def clamp01 (x : ℚ) : ℚ := max 0 (min 1 x)

/-- normalize_metric from SCREENING_ALGORITHM.md: z-score versus target and
scale, mapped onto [0,1] over a plus/minus 3 sigma window and clamped. -/
def normalize_metric (x target scale : ℚ) : ℚ :=
  clamp01 (((x - target) / scale + 3) / 6)

/-- Theta component score (SCREENING_ALGORITHM.md, Theta Component logic):
full score on [0.05, 0.15], scaled up below, penalized with floor 0.3 above. -/
def theta_score (theta_abs : ℚ) : ℚ :=
  if 1/20 ≤ theta_abs ∧ theta_abs ≤ 3/20 then 1
  else if theta_abs < 1/20 then theta_abs / (1/20)
  else max (3/10) (1 - (theta_abs - 3/20) / (3/20))

/-- Gamma component score: 1.0 if gamma at most 0.001, 0.7 if at most 0.003,
0.3 otherwise. -/
def gamma_score (gamma : ℚ) : ℚ :=
  if gamma ≤ 1/1000 then 1
  else if gamma ≤ 3/1000 then 7/10
  else 3/10

/-- Vega component score, matching vega exposure to the IV environment. -/
def vega_score (vega iv_rank : ℚ) : ℚ :=
  if iv_rank > 70 ∧ vega > 1/5 then 1
  else if iv_rank > 70 ∧ vega > 2/25 then 4/5
  else if iv_rank < 30 ∧ vega < 2/25 then 9/10
  else 3/5

/-- Contrarian sentiment signal (v2.7). -/
inductive ContrarianSignal where
  | long
  | short
  | none
deriving DecidableEq, Repr

/-- Contrarian signal derivation (src/unnamed/part_006, Contrarian Logic):
LONG when put/call at least 1.2 and CMF at least 0.05, SHORT when put/call at
most 0.9 and CMF at most -0.05, NONE otherwise. -/
def derive_contrarian_signal (put_call cmf : ℚ) : ContrarianSignal :=
  if 12/10 ≤ put_call ∧ 1/20 ≤ cmf then ContrarianSignal.long
  else if put_call ≤ 9/10 ∧ cmf ≤ -(1/20) then ContrarianSignal.short
  else ContrarianSignal.none

/-- CC sentiment multiplier (src/DEPLOYMENT_v2.7.md: 10 percent boost for
LONG signals, 5 percent penalty for SHORT). -/
def cc_sentiment_factor : ContrarianSignal → ℚ
  | ContrarianSignal.long => 11/10
  | ContrarianSignal.short => 19/20
  | ContrarianSignal.none => 1

/-- CSP sentiment multiplier (src/DEPLOYMENT_v2.7.md: 10 percent boost for
LONG signals, 10 percent penalty for SHORT). -/
def csp_sentiment_factor : ContrarianSignal → ℚ
  | ContrarianSignal.long => 11/10
  | ContrarianSignal.short => 9/10
  | ContrarianSignal.none => 1

/-- Tiered earnings penalty (src/unnamed/part_008, Penalty Formula, v2.3,
applied to both CC and CSP scoring): under 7 days times 0.50, under 14 times
0.70, under 21 times 0.85, under 30 times 0.93, otherwise no penalty. -/
def earnings_penalty_factor (earnings_days_until : ℤ) : ℚ :=
  if earnings_days_until < 7 then 1/2
  else if earnings_days_until < 14 then 7/10
  else if earnings_days_until < 21 then 17/20
  else if earnings_days_until < 30 then 93/100
  else 1

/-- IV rank component of the CC base score (25 percent weight). -/
def cc_iv_component (iv_rank : ℚ) : ℚ :=
  normalize_metric iv_rank 50 15 * (25/100)

/-- ROI component of the CC base score (30 percent weight); roi_30d is a
decimal, scored in percent. -/
def cc_roi_component (roi_30d : ℚ) : ℚ :=
  normalize_metric (roi_30d * 100) (3/2) (1/2) * (30/100)

/-- Trend component of the CC base score (15 percent weight). -/
def cc_trend_component (trend_strength : ℚ) : ℚ :=
  (trend_strength + 1) / 2 * (15/100)

/-- Dividend component of the CC base score (5 percent weight). -/
def cc_dividend_component (dividend_yield : ℚ) : ℚ :=
  min (dividend_yield / (5/100)) 1 * (5/100)

/-- Theta component of the base score (10 percent weight); takes the raw
(negative) theta and scores its absolute value. -/
def base_theta_component (theta : ℚ) : ℚ :=
  theta_score |theta| * (10/100)

/-- Gamma component of the base score (5 percent weight). -/
def base_gamma_component (gamma : ℚ) : ℚ :=
  gamma_score gamma * (5/100)

/-- Vega component of the base score (10 percent weight). -/
def base_vega_component (vega iv_rank : ℚ) : ℚ :=
  vega_score vega iv_rank * (10/100)

/-- Weighted CC base score: sum of the seven components (weights total 1.0). -/
def cc_base_score (iv_rank roi_30d trend_strength dividend_yield theta gamma
    vega : ℚ) : ℚ :=
  cc_iv_component iv_rank + cc_roi_component roi_30d +
  cc_trend_component trend_strength + cc_dividend_component dividend_yield +
  base_theta_component theta + base_gamma_component gamma +
  base_vega_component vega iv_rank

/-- Inputs of the CC scoring function (score_cc.py as documented). -/
structure CCInput where
  iv_rank : ℚ
  roi_30d : ℚ
  trend_strength : ℚ
  dividend_yield : ℚ
  theta : ℚ
  gamma : ℚ
  vega : ℚ
  below_200sma : Bool
  spread_pct : ℚ
  open_interest : ℤ
  trend_consistency : ℚ
  earnings_days_until : ℤ
  contrarian_signal : ContrarianSignal
deriving DecidableEq, Repr

/-- CC score before the final clamp: base score times every bonus/penalty
multiplier (SCREENING_ALGORITHM.md Additional Score Adjustments, with the
v2.3 earnings tiers and the v2.7 sentiment factor). -/
def cc_adjusted_score (inp : CCInput) : ℚ :=
  cc_base_score inp.iv_rank inp.roi_30d inp.trend_strength inp.dividend_yield
      inp.theta inp.gamma inp.vega *
    (if inp.below_200sma then 85/100 else 1) *
    (if inp.spread_pct > 7/100 then 95/100 else 1) *
    earnings_penalty_factor inp.earnings_days_until *
    (if inp.open_interest > 2000 then 105/100 else 1) *
    (if inp.trend_consistency > 7/10 then 103/100 else 1) *
    cc_sentiment_factor inp.contrarian_signal

/-- Final CC score: adjusted score clamped onto [0,1]. -/
def cc_score (inp : CCInput) : ℚ := clamp01 (cc_adjusted_score inp)

/-- IV rank component of the CSP base score (target 55). -/
def csp_iv_component (iv_rank : ℚ) : ℚ :=
  normalize_metric iv_rank 55 15 * (25/100)

/-- ROI component of the CSP base score (target 1.2 percent, scale 0.4). -/
def csp_roi_component (roi_30d : ℚ) : ℚ :=
  normalize_metric (roi_30d * 100) (12/10) (4/10) * (30/100)

/-- Margin-of-safety component of the CSP base score (target 7.5 percent,
scale 3, 15 percent weight). -/
def csp_margin_component (margin_of_safety : ℚ) : ℚ :=
  normalize_metric (margin_of_safety * 100) (15/2) 3 * (15/100)

/-- Trend-stability component of the CSP base score (5 percent weight). -/
def csp_stability_component (trend_stability : ℚ) : ℚ :=
  trend_stability * (5/100)

/-- Weighted CSP base score: sum of the seven components. -/
def csp_base_score (iv_rank roi_30d margin_of_safety trend_stability theta
    gamma vega : ℚ) : ℚ :=
  csp_iv_component iv_rank + csp_roi_component roi_30d +
  csp_margin_component margin_of_safety +
  csp_stability_component trend_stability +
  base_theta_component theta + base_gamma_component gamma +
  base_vega_component vega iv_rank

/-- Inputs of the CSP scoring function (score_csp.py as documented). -/
structure CSPInput where
  iv_rank : ℚ
  roi_30d : ℚ
  margin_of_safety : ℚ
  trend_stability : ℚ
  theta : ℚ
  gamma : ℚ
  vega : ℚ
  in_uptrend : Bool
  iv_percentile : ℚ
  spread_pct : ℚ
  open_interest : ℤ
  earnings_days_until : ℤ
  contrarian_signal : ContrarianSignal
deriving DecidableEq, Repr

/-- CSP score before the final clamp: base score times every bonus/penalty
multiplier. -/
def csp_adjusted_score (inp : CSPInput) : ℚ :=
  csp_base_score inp.iv_rank inp.roi_30d inp.margin_of_safety
      inp.trend_stability inp.theta inp.gamma inp.vega *
    (if inp.margin_of_safety < 1/20 then 92/100 else 1) *
    (if inp.in_uptrend then 108/100 else 1) *
    (if inp.iv_percentile > 80 then 103/100 else 1) *
    (if inp.spread_pct > 7/100 then 95/100 else 1) *
    earnings_penalty_factor inp.earnings_days_until *
    (if inp.open_interest > 2000 then 105/100 else 1) *
    csp_sentiment_factor inp.contrarian_signal

/-- Final CSP score: adjusted score clamped onto [0,1]. -/
def csp_score (inp : CSPInput) : ℚ := clamp01 (csp_adjusted_score inp)

/-- Strategy tag: covered call or cash-secured put. -/
inductive Strategy where
  | CC
  | CSP
deriving DecidableEq, Repr

/-- One option contract of the chain handed to the Contract Selector
(per-side chains: calls for CC, puts for CSP). -/
structure OptionContract where
  strike : ℚ
  bid : ℚ
  ask : ℚ
  delta : ℚ
  open_interest : ℤ
  volume : ℤ
  days_to_expiry : ℤ
deriving DecidableEq, Repr

/-- Mid price of a contract, used as the premium. -/
def OptionContract.mid (c : OptionContract) : ℚ := (c.bid + c.ask) / 2

/-- Bid-ask spread as a fraction of the mid price. -/
def OptionContract.spread_frac (c : OptionContract) : ℚ :=
  (c.ask - c.bid) / c.mid

/-- 30-day normalized ROI of a contract: premium over basis, scaled to 30
days; basis is the stock price for CC and the strike for CSP. -/
def contract_roi_30d (strategy : Strategy) (stock_price : ℚ)
    (c : OptionContract) : ℚ :=
  c.mid / (match strategy with
            | Strategy.CC => stock_price
            | Strategy.CSP => c.strike) * (30 / (c.days_to_expiry : ℚ))

/-- Hard filters of the Contract Selector (SCREENING_ALGORITHM.md, Hard
Filters (Must Pass)): DTE window, delta range, strike range, open interest,
volume, spread and premium thresholds; every check must pass. -/
def is_eligible (strategy : Strategy) (stock_price : ℚ)
    (c : OptionContract) : Bool :=
  decide (30 ≤ c.days_to_expiry) && decide (c.days_to_expiry ≤ 45) &&
  (match strategy with
   | Strategy.CC =>
       decide (25/100 ≤ c.delta) && decide (c.delta ≤ 35/100) &&
       decide (102/100 * stock_price ≤ c.strike) &&
       decide (c.strike ≤ 105/100 * stock_price)
   | Strategy.CSP =>
       decide (25/100 ≤ |c.delta|) && decide (|c.delta| ≤ 30/100) &&
       decide (95/100 * stock_price ≤ c.strike) &&
       decide (c.strike ≤ 98/100 * stock_price)) &&
  decide (500 ≤ c.open_interest) && decide (50 ≤ c.volume) &&
  decide (c.spread_frac ≤ 10/100) && decide (1/100 < c.mid)

/-- Keep the better of an accumulator and a candidate under the key f
(folding this over a list selects an element with maximal key). -/
def pick_better {α β : Type} [LinearOrder β] (f : α → β)
    (best : Option α) (x : α) : Option α :=
  match best with
  | Option.none => some x
  | some b => if f b < f x then some x else some b

/-- Contract selection: among the contracts passing every hard filter,
select the one maximizing 30-day ROI; nothing eligible yields none. -/
def select_best (strategy : Strategy) (stock_price : ℚ)
    (chain : List OptionContract) : Option OptionContract :=
  (chain.filter (fun c => is_eligible strategy stock_price c)).foldl
    (pick_better (contract_roi_30d strategy stock_price)) Option.none

/-- Day-over-day changes of a close series (consecutive differences). -/
def close_changes (closes : List ℚ) : List ℚ :=
  (closes.zip closes.tail).map (fun p => p.2 - p.1)

/-- Last n elements of a list. -/
def last_n {α : Type} (n : ℕ) (l : List α) : List α :=
  l.drop (l.length - n)

/-- Average of the gains among the last 14 day-over-day moves. -/
def avg_gain (closes : List ℚ) : ℚ :=
  ((last_n 14 (close_changes closes)).map (fun c => max 0 c)).sum / 14

/-- Average of the losses among the last 14 day-over-day moves. -/
def avg_loss (closes : List ℚ) : ℚ :=
  ((last_n 14 (close_changes closes)).map (fun c => |min 0 c|)).sum / 14

/-- Modelled from the spec: Wilder 14-period RSI. The computation over the
last 14 up/down moves follows the pseudo-code of SCREENING_ALGORITHM.md
(Relative Strength Index); the avg_loss = 0 guard returning 100 before any
division, and the none result below 15 closes, follow the spec because
python_app/src/features/technicals.py itself is not in the corpus and the
pseudo-code omits its error handling. -/
def rsi14 (closes : List ℚ) : Option ℚ :=
  if closes.length < 15 then Option.none
  else if avg_loss closes = 0 then some 100
  else some (100 - 100 / (1 + avg_gain closes / avg_loss closes))

/-- One OHLCV price bar. -/
structure PriceBar where
  high : ℚ
  low : ℚ
  close : ℚ
  volume : ℚ
deriving DecidableEq, Repr

/-- Mean of a list of rationals (0 on the empty list). -/
def list_mean (l : List ℚ) : ℚ := l.sum / (l.length : ℚ)

/-- Simple moving average over the last n closes (over the whole history
when fewer than n bars are available; irrelevant to the proved claims). -/
def sma (n : ℕ) (closes : List ℚ) : ℚ := list_mean (last_n n closes)

/-- Clamp onto [-1, 1]. -/
def clamp_pm1 (x : ℚ) : ℚ := max (-1) (min 1 x)

/-- Last close of the history (0 on the empty list). -/
def last_close (closes : List ℚ) : ℚ := closes.getLast?.getD 0

/-- Price-versus-SMA sub-score of trend strength, rescaled onto [-1,1]. -/
def price_vs_sma_component (closes : List ℚ) : ℚ :=
  (((if last_close closes > sma 20 closes then 33/100 else 0) +
    (if last_close closes > sma 50 closes then 33/100 else 0) +
    (if last_close closes > sma 200 closes then 34/100 else 0)) - 1/2) * 2

/-- SMA-alignment sub-score of trend strength, rescaled onto [-1,1]. -/
def sma_alignment_component (closes : List ℚ) : ℚ :=
  (((if sma 20 closes > sma 50 closes then 1/2 else 0) +
    (if sma 50 closes > sma 200 closes then 1/2 else 0)) - 1/2) * 2

/-- RSI-momentum sub-score of trend strength (RSI 50 is neutral); uses the
neutral RSI when the history is too short for rsi14. -/
def rsi_momentum_component (closes : List ℚ) : ℚ :=
  clamp_pm1 (((rsi14 closes).getD 50 - 50) / 50)

/-- Recent-momentum sub-score of trend strength: last 5 closes versus the
prior 5, amplified by 10 and clamped. -/
def recent_momentum_component (closes : List ℚ) : ℚ :=
  clamp_pm1 ((list_mean (last_n 5 closes) -
              list_mean ((last_n 10 closes).take 5)) /
             list_mean ((last_n 10 closes).take 5) * 10)

/-- Composite trend strength: weighted sum 0.40/0.30/0.20/0.10 of the four
sub-scores. -/
def trend_strength_calc (closes : List ℚ) : ℚ :=
  price_vs_sma_component closes * (40/100) +
  sma_alignment_component closes * (30/100) +
  rsi_momentum_component closes * (20/100) +
  recent_momentum_component closes * (10/100)

/-- Executable rational square-root approximation (floor at denominator
granularity), standing in for the float sqrt of the std-dev computation. -/
def rat_sqrt (q : ℚ) : ℚ :=
  if q ≤ 0 then 0 else (Nat.sqrt (q.num.toNat * q.den) : ℚ) / (q.den : ℚ)

/-- Population standard deviation of a list of rationals. -/
def list_std_dev (l : List ℚ) : ℚ :=
  rat_sqrt (list_mean (l.map (fun x => (x - list_mean l) ^ 2)))

/-- Volatility sub-score of trend stability from the coefficient of
variation of the last 20 closes. -/
def volatility_component (closes : List ℚ) : ℚ :=
  max 0 (1 - (list_std_dev (last_n 20 closes) / list_mean (last_n 20 closes))
            / (10/100))

/-- Directional-consistency sub-score: balance of up and down days over the
last 19 day-over-day changes. -/
def consistency_component (closes : List ℚ) : ℚ :=
  let changes := last_n 19 (close_changes closes)
  |((changes.filter (fun c => 0 < c)).length : ℚ) -
    ((changes.filter (fun c => c < 0)).length : ℚ)| / 19

/-- True ranges of a bar sequence. -/
def true_ranges (bars : List PriceBar) : List ℚ :=
  (bars.zip bars.tail).map
    (fun p => max (p.2.high - p.2.low)
                  (max |p.2.high - p.1.close| |p.2.low - p.1.close|))

/-- 14-period average true range. -/
def atr14 (bars : List PriceBar) : ℚ :=
  (last_n 14 (true_ranges bars)).sum / 14

/-- ATR-relative sub-score of trend stability. -/
def atr_component (bars : List PriceBar) : ℚ :=
  max 0 (1 - (atr14 bars / last_close (bars.map PriceBar.close)) / (5/100))

/-- Composite trend stability: weighted sum 0.40/0.30/0.30. -/
def trend_stability_calc (bars : List PriceBar) : ℚ :=
  volatility_component (bars.map PriceBar.close) * (40/100) +
  consistency_component (bars.map PriceBar.close) * (30/100) +
  atr_component bars * (30/100)

/-- Trend fields of a technical snapshot. -/
structure TechnicalSnapshot where
  trend_strength : ℚ
  trend_stability : ℚ
deriving DecidableEq, Repr

/-- Modelled from the spec: the Technical Indicator Engine entry point
(python_app/src/features/technicals.py is not in the corpus). Fewer than 15
bars yields the documented neutral fallback, trend_strength 0 and
trend_stability 0.5, instead of throwing; otherwise the composites follow
the formulas of SCREENING_ALGORITHM.md, Trend Analysis Integration. -/
def compute_technical_snapshot (bars : List PriceBar) : TechnicalSnapshot :=
  if bars.length < 15 then
    { trend_strength := 0, trend_stability := 1/2 }
  else
    { trend_strength := trend_strength_calc (bars.map PriceBar.close),
      trend_stability := trend_stability_calc bars }

/-- A row of the picks table (representative columns; the route logic only
inspects the id). -/
structure PickRow where
  id : ℤ
  symbol : String
  score : ℚ
deriving DecidableEq, Repr

/-- A row of the rationales table. -/
structure RationaleRow where
  pick_id : ℤ
  summary : String
  created_at : ℤ
deriving DecidableEq, Repr

/-- The dashboard database state the Node service reads. -/
structure ScreenerDb where
  picks : List PickRow
  rationales : List RationaleRow
deriving DecidableEq, Repr

/-- A pick augmented with its rationale, the shape DatabaseService.getPickById
returns. -/
structure PickWithRationale where
  pick : PickRow
  rationale : Option String
deriving DecidableEq, Repr

/-- The rationale row for a pick with the latest created_at, mirroring the
ORDER BY created_at DESC LIMIT 1 query of db.js. -/
def latest_rationale (db : ScreenerDb) (id : ℤ) : Option RationaleRow :=
  (db.rationales.filter (fun r => r.pick_id = id)).foldl
    (pick_better RationaleRow.created_at) Option.none

/-- DatabaseService.getPickById (src/unnamed/part_001, lines 150-174): find
the pick row by id, null when absent, otherwise attach the most recent
rationale summary or null. -/
def getPickById (db : ScreenerDb) (id : ℤ) : Option PickWithRationale :=
  match db.picks.find? (fun p => p.id = id) with
  | Option.none => Option.none
  | some p =>
      some { pick := p,
             rationale := (latest_rationale db id).map RationaleRow.summary }

/-- The response of the GET picks-by-id route: HTTP status and JSON body
fields. -/
structure ApiResponse where
  status : ℕ
  success : Bool
  error : Option String
  pick : Option PickWithRationale
deriving DecidableEq, Repr

/-- The GET picks-by-id route handler (src/node_ui/src/routes/picks.js,
lines 160-183): 404 with success false and the fixed error string when the
pick is missing, otherwise 200 with the augmented pick. -/
def get_pick_route (db : ScreenerDb) (id : ℤ) : ApiResponse :=
  match getPickById db id with
  | Option.none =>
      { status := 404, success := false,
        error := some ("Pick not found"), pick := Option.none }
  | some p =>
      { status := 200, success := true,
        error := Option.none, pick := some p }

theorem clamp01_nonneg (x : ℚ) : 0 ≤ clamp01 x := le_max_left 0 _

theorem clamp01_le_one (x : ℚ) : clamp01 x ≤ 1 :=
  max_le (by norm_num) (min_le_left 1 x)

theorem clamp01_mono {x y : ℚ} (h : x ≤ y) : clamp01 x ≤ clamp01 y :=
  max_le_max (le_refl 0) (min_le_min (le_refl 1) h)

theorem clamp01_eq_self {x : ℚ} (h0 : 0 ≤ x) (h1 : x ≤ 1) : clamp01 x = x := by
  unfold clamp01
  rw [min_eq_right h1, max_eq_right h0]

theorem clamp01_of_one_le {x : ℚ} (h : 1 ≤ x) : clamp01 x = 1 := by
  unfold clamp01
  rw [min_eq_left h, max_eq_right (by norm_num : (0:ℚ) ≤ 1)]

theorem foldl_pick_better_mem {α β : Type} [LinearOrder β] (f : α → β) :
    ∀ (l : List α) (acc : Option α) (c : α),
      l.foldl (pick_better f) acc = some c → c ∈ l ∨ acc = some c := by
  intro l
  induction l with
  | nil => exact fun acc c h => Or.inr h
  | cons a t ih =>
      intro acc c h
      rcases ih (pick_better f acc a) c h with hm | he
      · exact Or.inl (List.mem_cons_of_mem _ hm)
      · cases acc with
        | none =>
            cases he
            exact Or.inl (List.mem_cons_self _ _)
        | some b =>
            rw [show pick_better f (some b) a =
                  if f b < f a then some a else some b from rfl] at he
            by_cases hba : f b < f a
            · rw [if_pos hba] at he
              cases he
              exact Or.inl (List.mem_cons_self _ _)
            · rw [if_neg hba] at he
              exact Or.inr he

theorem foldl_pick_better_acc_le {α β : Type} [LinearOrder β] (f : α → β) :
    ∀ (l : List α) (acc : Option α) (b c : α),
      l.foldl (pick_better f) acc = some c → acc = some b → f b ≤ f c := by
  intro l
  induction l with
  | nil =>
      intro acc b c h hb
      rw [hb] at h
      cases h
      exact le_refl _
  | cons a t ih =>
      intro acc b c h hb
      subst hb
      rw [List.foldl_cons,
          show pick_better f (some b) a =
            if f b < f a then some a else some b from rfl] at h
      by_cases hba : f b < f a
      · rw [if_pos hba] at h
        exact le_trans (le_of_lt hba) (ih (some a) a c h rfl)
      · rw [if_neg hba] at h
        exact ih (some b) b c h rfl

theorem foldl_pick_better_max {α β : Type} [LinearOrder β] (f : α → β) :
    ∀ (l : List α) (acc : Option α) (c : α),
      l.foldl (pick_better f) acc = some c → ∀ x ∈ l, f x ≤ f c := by
  intro l
  induction l with
  | nil =>
      intro acc c _ x hx
      cases hx
  | cons a t ih =>
      intro acc c h x hx
      rw [List.foldl_cons] at h
      rcases List.mem_cons.mp hx with rfl | hxt
      · cases acc with
        | none => exact foldl_pick_better_acc_le f t _ x c h rfl
        | some b =>
            by_cases hba : f b < f x
            · refine foldl_pick_better_acc_le f t _ x c h ?_
              rw [show pick_better f (some b) x =
                    if f b < f x then some x else some b from rfl, if_pos hba]
            · refine le_trans (le_of_not_lt hba)
                (foldl_pick_better_acc_le f t _ b c h ?_)
              rw [show pick_better f (some b) x =
                    if f b < f x then some x else some b from rfl, if_neg hba]
      · exact ih _ c h x hxt

/-- Claim C1: for every input, the CC and CSP scoring functions return a
final score in [0,1]: the weighted base score is multiplied by every
applicable bonus/penalty adjustment and then clamped onto [0,1]; a concrete
CSP input shows the pre-clamp adjusted score exceeding 1 and the final score
capped at exactly 1. -/
theorem score_bounded_in_unit_interval :
    (∀ inp : CCInput, 0 ≤ cc_score inp ∧ cc_score inp ≤ 1) ∧
    (∀ inp : CSPInput, 0 ≤ csp_score inp ∧ csp_score inp ≤ 1) ∧
    (1 < csp_adjusted_score ⟨100, 52/1000, 12/100, 1, -(1/10), 5/10000,
        25/100, true, 85, 3/100, 1000, 45, ContrarianSignal.long⟩ ∧
      csp_score ⟨100, 52/1000, 12/100, 1, -(1/10), 5/10000,
        25/100, true, 85, 3/100, 1000, 45, ContrarianSignal.long⟩ = 1) := by
  refine ⟨fun inp => ⟨clamp01_nonneg _, clamp01_le_one _⟩,
          fun inp => ⟨clamp01_nonneg _, clamp01_le_one _⟩, ?_, ?_⟩ <;>
    norm_num [csp_score, csp_adjusted_score, csp_base_score, csp_iv_component,
      csp_roi_component, csp_margin_component, csp_stability_component,
      base_theta_component, base_gamma_component, base_vega_component,
      theta_score, gamma_score, vega_score, normalize_metric, clamp01,
      min_def, max_def, abs_neg, abs_of_nonneg, earnings_penalty_factor,
      csp_sentiment_factor]

/-- Claim C2 counterexample: at the worked-example inputs the theta component
of the CC base score is 0.030 (not approximately 0.070) because
theta_score(0.2764) hits the 0.3 floor, and the base score is 0.750 (not
approximately 0.790). -/
theorem cc_worked_example_counterexample :
    base_theta_component (-(2764/10000)) = 3/100 ∧
    cc_base_score 100 (786/10000) 0 0 (-(2764/10000)) (90/10000)
        (1557/10000) = 3/4 ∧
    ¬ |(3 : ℚ)/100 - 7/100| ≤ 1/100 ∧
    ¬ |(3 : ℚ)/4 - 79/100| ≤ 1/100 := by
  norm_num [base_theta_component, cc_base_score, cc_iv_component,
    cc_roi_component, cc_trend_component, cc_dividend_component,
    base_gamma_component, base_vega_component, theta_score, gamma_score,
    vega_score, normalize_metric, clamp01, min_def, max_def, abs_neg,
    abs_of_nonneg, abs_le]

/-- Claim C2 amended: at the CC worked-example inputs (iv_rank 100, roi_30d
7.86 percent, trend_strength 0, dividend_yield 0, theta 0.2764 absolute,
gamma 0.0090, vega 0.1557) the base-score components are exactly iv 0.250,
roi 0.300, trend 0.075, dividend 0, theta 0.030 (theta_score(0.2764) is the
0.3 floor, since 1 - (0.2764-0.15)/0.15 is below 0.3), gamma 0.015 and vega
0.080, and the base score before adjustments is exactly 0.750. -/
theorem cc_worked_example_components :
    cc_iv_component 100 = 1/4 ∧
    cc_roi_component (786/10000) = 3/10 ∧
    cc_trend_component 0 = 3/40 ∧
    cc_dividend_component 0 = 0 ∧
    theta_score (2764/10000) = 3/10 ∧
    base_theta_component (-(2764/10000)) = 3/100 ∧
    base_gamma_component (90/10000) = 3/200 ∧
    base_vega_component (1557/10000) 100 = 2/25 ∧
    cc_base_score 100 (786/10000) 0 0 (-(2764/10000)) (90/10000)
        (1557/10000) = 3/4 := by
  norm_num [cc_base_score, cc_iv_component, cc_roi_component,
    cc_trend_component, cc_dividend_component, base_theta_component,
    base_gamma_component, base_vega_component, theta_score, gamma_score,
    vega_score, normalize_metric, clamp01, min_def, max_def, abs_neg,
    abs_of_nonneg]

/-- Claim C3 counterexample: the earnings adjustment of the scoring functions
is the tiered penalty of v2.3, not a single boolean 0.97 factor: at 2 days to
earnings the multiplier is 0.50, at 10 days it is 0.70, neither equals 0.97,
and the factor depends on the number of days. -/
theorem earnings_adjustment_counterexample :
    earnings_penalty_factor 2 = 1/2 ∧
    earnings_penalty_factor 10 = 7/10 ∧
    earnings_penalty_factor 2 ≠ 97/100 ∧
    earnings_penalty_factor 10 ≠ 97/100 ∧
    earnings_penalty_factor 2 ≠ earnings_penalty_factor 10 := by
  norm_num [earnings_penalty_factor]

/-- Claim C3 amended: in both CC and CSP scoring the earnings adjustment is a
single multiplicative factor determined by earnings_days_until in tiers:
under 7 days times 0.50, 7 to 13 days times 0.70, 14 to 20 days times 0.85,
21 to 29 days times 0.93, and 30 days or more no penalty; the whole score is
the earnings-free score times this factor. -/
theorem earnings_adjustment_tiered :
    (∀ d : ℤ,
      (d < 7 → earnings_penalty_factor d = 1/2) ∧
      (7 ≤ d → d < 14 → earnings_penalty_factor d = 7/10) ∧
      (14 ≤ d → d < 21 → earnings_penalty_factor d = 17/20) ∧
      (21 ≤ d → d < 30 → earnings_penalty_factor d = 93/100) ∧
      (30 ≤ d → earnings_penalty_factor d = 1)) ∧
    (∀ (inp : CCInput) (d : ℤ),
      cc_adjusted_score { inp with earnings_days_until := d } =
        cc_adjusted_score { inp with earnings_days_until := 30 } *
          earnings_penalty_factor d) ∧
    (∀ (inp : CSPInput) (d : ℤ),
      csp_adjusted_score { inp with earnings_days_until := d } =
        csp_adjusted_score { inp with earnings_days_until := 30 } *
          earnings_penalty_factor d) := by
  refine ⟨fun d => ?_, fun inp d => ?_, fun inp d => ?_⟩
  · unfold earnings_penalty_factor
    refine ⟨fun h => by rw [if_pos h],
            fun h1 h2 => by rw [if_neg (by omega), if_pos h2],
            fun h1 h2 => by rw [if_neg (by omega), if_neg (by omega),
                                if_pos h2],
            fun h1 h2 => by rw [if_neg (by omega), if_neg (by omega),
                                if_neg (by omega), if_pos h2],
            fun h => by rw [if_neg (by omega), if_neg (by omega),
                            if_neg (by omega), if_neg (by omega)]⟩
  · simp only [cc_adjusted_score]
    rw [show earnings_penalty_factor 30 = 1 from rfl]
    ring
  · simp only [csp_adjusted_score]
    rw [show earnings_penalty_factor 30 = 1 from rfl]
    ring

/-- Witness for the amended C3 theorem at concrete day counts. -/
theorem earnings_adjustment_tiered_witness :
    earnings_penalty_factor 3 = 1/2 ∧
    earnings_penalty_factor 16 = 17/20 ∧
    earnings_penalty_factor 45 = 1 :=
  ⟨(earnings_adjustment_tiered.1 3).1 (by decide),
   (earnings_adjustment_tiered.1 16).2.2.1 (by decide) (by decide),
   (earnings_adjustment_tiered.1 45).2.2.2.2 (by decide)⟩

/-- Claim C4: a contract is eligible exactly when every hard filter bound
holds simultaneously (DTE window, strategy-specific delta and strike ranges,
open interest, volume, spread and premium thresholds), and the selector
never selects, hence never scores, a contract failing any bound. -/
theorem is_eligible_iff_hard_filters :
    (∀ (s : Strategy) (p : ℚ) (c : OptionContract),
      is_eligible s p c = true ↔
        ((30 ≤ c.days_to_expiry ∧ c.days_to_expiry ≤ 45) ∧
         (s = Strategy.CC →
            (25/100 ≤ c.delta ∧ c.delta ≤ 35/100) ∧
            (102/100 * p ≤ c.strike ∧ c.strike ≤ 105/100 * p)) ∧
         (s = Strategy.CSP →
            (25/100 ≤ |c.delta| ∧ |c.delta| ≤ 30/100) ∧
            (95/100 * p ≤ c.strike ∧ c.strike ≤ 98/100 * p)) ∧
         500 ≤ c.open_interest ∧ 50 ≤ c.volume ∧
         c.spread_frac ≤ 10/100 ∧ 1/100 < c.mid)) ∧
    (∀ (s : Strategy) (p : ℚ) (chain : List OptionContract)
        (c : OptionContract),
      select_best s p chain = some c → is_eligible s p c = true) := by
  constructor
  · intro s p c
    cases s <;>
      simp [is_eligible, Bool.and_eq_true, decide_eq_true_eq, and_assoc]
  · intro s p chain c h
    unfold select_best at h
    rcases foldl_pick_better_mem _ _ _ _ h with hm | hm
    · exact (List.mem_filter.mp hm).2
    · exact Option.noConfusion hm

/-- Witness for the C4 theorem: a concrete eligible CC contract is selected
from a one-contract chain and indeed passes the filter. -/
theorem is_eligible_iff_hard_filters_witness :
    is_eligible Strategy.CC 100 ⟨103, 2, 21/10, 3/10, 1000, 100, 35⟩ = true :=
  is_eligible_iff_hard_filters.2 Strategy.CC 100
    [⟨103, 2, 21/10, 3/10, 1000, 100, 35⟩]
    ⟨103, 2, 21/10, 3/10, 1000, 100, 35⟩
    (by norm_num [select_best, is_eligible, pick_better,
          OptionContract.spread_frac, OptionContract.mid])

/-- Claim C5: the contrarian signal is long exactly when the put/call ratio
is at least 1.2 and cmf_20 at least 0.05, short exactly when the ratio is at
most 0.9 and cmf_20 at most -0.05, and none otherwise; in particular
(2.15, 0.18) is long, (0.55, -0.16) is short and (1.05, 0.02) is none. -/
theorem contrarian_signal_characterization :
    (∀ pc cmf : ℚ,
      (derive_contrarian_signal pc cmf = ContrarianSignal.long ↔
        12/10 ≤ pc ∧ 1/20 ≤ cmf) ∧
      (derive_contrarian_signal pc cmf = ContrarianSignal.short ↔
        pc ≤ 9/10 ∧ cmf ≤ -(1/20)) ∧
      (derive_contrarian_signal pc cmf = ContrarianSignal.none ↔
        ¬(12/10 ≤ pc ∧ 1/20 ≤ cmf) ∧ ¬(pc ≤ 9/10 ∧ cmf ≤ -(1/20)))) ∧
    derive_contrarian_signal (215/100) (18/100) = ContrarianSignal.long ∧
    derive_contrarian_signal (55/100) (-(16/100)) = ContrarianSignal.short ∧
    derive_contrarian_signal (105/100) (2/100) = ContrarianSignal.none := by
  refine ⟨fun pc cmf => ?_, by norm_num [derive_contrarian_signal],
          by norm_num [derive_contrarian_signal],
          by norm_num [derive_contrarian_signal]⟩
  unfold derive_contrarian_signal
  by_cases h1 : 12/10 ≤ pc ∧ 1/20 ≤ cmf
  · rw [if_pos h1]
    refine ⟨iff_of_true rfl h1, iff_of_false (by simp) ?_,
            iff_of_false (by simp) (fun hn => hn.1 h1)⟩
    rintro ⟨ha, -⟩
    linarith [h1.1]
  · rw [if_neg h1]
    by_cases h2 : pc ≤ 9/10 ∧ cmf ≤ -(1/20)
    · rw [if_pos h2]
      exact ⟨iff_of_false (by simp) h1, iff_of_true rfl h2,
             iff_of_false (by simp) (fun hn => hn.2 h2)⟩
    · rw [if_neg h2]
      exact ⟨iff_of_false (by simp) h1, iff_of_false (by simp) h2,
             iff_of_true rfl ⟨h1, h2⟩⟩

/-- Witness for the C5 theorem at a fresh concrete input. -/
theorem contrarian_signal_characterization_witness :
    derive_contrarian_signal 2 (1/10) = ContrarianSignal.long :=
  ((contrarian_signal_characterization.1 2 (1/10)).1).mpr (by norm_num)

/-- Claim C6: sentiment enters both scoring functions as one final
multiplicative factor of the contrarian signal; its values are 1.10 for
long, 0.95 for short and 1.0 for none on the CC side, and 1.10 for long,
0.90 for short and 1.0 for none on the CSP side, so CSP penalizes a short
signal more heavily than CC. -/
theorem sentiment_adjustment_factors :
    (∀ inp : CCInput,
      cc_adjusted_score inp =
        cc_adjusted_score
            { inp with contrarian_signal := ContrarianSignal.none } *
          cc_sentiment_factor inp.contrarian_signal) ∧
    (∀ inp : CSPInput,
      csp_adjusted_score inp =
        csp_adjusted_score
            { inp with contrarian_signal := ContrarianSignal.none } *
          csp_sentiment_factor inp.contrarian_signal) ∧
    cc_sentiment_factor ContrarianSignal.long = 11/10 ∧
    cc_sentiment_factor ContrarianSignal.short = 19/20 ∧
    cc_sentiment_factor ContrarianSignal.none = 1 ∧
    csp_sentiment_factor ContrarianSignal.long = 11/10 ∧
    csp_sentiment_factor ContrarianSignal.short = 9/10 ∧
    csp_sentiment_factor ContrarianSignal.none = 1 ∧
    csp_sentiment_factor ContrarianSignal.short <
      cc_sentiment_factor ContrarianSignal.short := by
  refine ⟨fun inp => ?_, fun inp => ?_, rfl, rfl, rfl, rfl, rfl, rfl,
          by norm_num [cc_sentiment_factor, csp_sentiment_factor]⟩
  · simp only [cc_adjusted_score, cc_sentiment_factor]
    ring
  · simp only [csp_adjusted_score, csp_sentiment_factor]
    ring

/-- Claim C7: rsi14 is total on histories of at least 15 closes, and when
the average loss over the most recent 14 moves is 0 it returns 100 from the
guard branch, before the rs division is ever formed. -/
theorem rsi14_total_and_zero_loss (closes : List ℚ)
    (h : 15 ≤ closes.length) :
    (∃ r, rsi14 closes = some r) ∧
    (avg_loss closes = 0 → rsi14 closes = some 100) := by
  unfold rsi14
  rw [if_neg (by omega)]
  by_cases hl : avg_loss closes = 0
  · rw [if_pos hl]
    exact ⟨⟨100, rfl⟩, fun _ => rfl⟩
  · rw [if_neg hl]
    exact ⟨⟨_, rfl⟩, fun hc => absurd hc hl⟩

/-- Witness for the C7 theorem: a strictly rising 15-close history has zero
average loss and rsi14 returns 100. -/
theorem rsi14_total_and_zero_loss_witness :
    rsi14 [1, 2, 3, 4, 5, 6, 7, 8, 9, 10, 11, 12, 13, 14, 15] = some 100 :=
  (rsi14_total_and_zero_loss _ (by simp)).2
    (by norm_num [avg_loss, last_n, close_changes])

/-- Claim C8 counterexample: the margin component does not plateau or
decrease past the 7.5 percent target: at margin 7.5 percent it is 0.075 and
at margin 10 percent it is strictly larger (about 0.0958), because
normalize is monotone rather than peaked at the target. -/
theorem margin_component_counterexample :
    csp_margin_component (3/40) = 3/40 ∧
    csp_margin_component (1/10) = 23/240 ∧
    csp_margin_component (3/40) < csp_margin_component (1/10) := by
  norm_num [csp_margin_component, normalize_metric, clamp01, min_def,
    max_def]

/-- Claim C8 amended: with everything else fixed, increasing roi_30d
strictly increases the CC roi component while the normalized value stays in
the non-clamped region; the CSP margin component is monotone nondecreasing
in margin_of_safety everywhere, strictly increasing while its normalized
value is in the non-clamped region, and saturates at its maximum 0.15 for
margins of at least 16.5 percent — it increases through the 7.5 percent
target rather than peaking there. -/
theorem roi_margin_monotonicity :
    (∀ x y : ℚ, x < y →
      0 < ((x * 100 - 3/2) / (1/2) + 3) / 6 →
      ((y * 100 - 3/2) / (1/2) + 3) / 6 < 1 →
      cc_roi_component x < cc_roi_component y) ∧
    (∀ m n : ℚ, m ≤ n →
      csp_margin_component m ≤ csp_margin_component n) ∧
    (∀ m n : ℚ, m < n →
      0 < ((m * 100 - 15/2) / 3 + 3) / 6 →
      ((n * 100 - 15/2) / 3 + 3) / 6 < 1 →
      csp_margin_component m < csp_margin_component n) ∧
    (∀ m : ℚ, 33/200 ≤ m → csp_margin_component m = 15/100) := by
  refine ⟨fun x y hxy hx hy => ?_, fun m n hmn => ?_,
          fun m n hmn hm hn => ?_, fun m hm => ?_⟩
  · unfold cc_roi_component normalize_metric
    have hraw : ((x * 100 - 3/2) / (1/2) + 3) / 6 <
        ((y * 100 - 3/2) / (1/2) + 3) / 6 := by
      have : x * 100 < y * 100 := by linarith
      linarith [this]
    rw [clamp01_eq_self (le_of_lt hx) (by linarith),
        clamp01_eq_self (by linarith) (le_of_lt hy)]
    have h30 : (0:ℚ) < 30/100 := by norm_num
    exact mul_lt_mul_of_pos_right hraw h30
  · unfold csp_margin_component normalize_metric
    have hraw : ((m * 100 - 15/2) / 3 + 3) / 6 ≤
        ((n * 100 - 15/2) / 3 + 3) / 6 := by
      have : m * 100 ≤ n * 100 := by linarith
      linarith [this]
    exact mul_le_mul_of_nonneg_right (clamp01_mono hraw) (by norm_num)
  · unfold csp_margin_component normalize_metric
    have hraw : ((m * 100 - 15/2) / 3 + 3) / 6 <
        ((n * 100 - 15/2) / 3 + 3) / 6 := by
      have : m * 100 < n * 100 := by linarith
      linarith [this]
    rw [clamp01_eq_self (le_of_lt hm) (by linarith),
        clamp01_eq_self (by linarith) (le_of_lt hn)]
    exact mul_lt_mul_of_pos_right hraw (by norm_num)
  · unfold csp_margin_component normalize_metric
    rw [clamp01_of_one_le (by linarith)]
    norm_num

/-- Witness for the amended C8 theorem at concrete inputs inside the
non-clamped region and in the saturated band. -/
theorem roi_margin_monotonicity_witness :
    cc_roi_component (1/100) < cc_roi_component (12/1000) ∧
    csp_margin_component (6/100) ≤ csp_margin_component (8/100) ∧
    csp_margin_component (6/100) < csp_margin_component (8/100) ∧
    csp_margin_component (17/100) = 15/100 :=
  ⟨roi_margin_monotonicity.1 (1/100) (12/1000) (by norm_num) (by norm_num)
      (by norm_num),
   roi_margin_monotonicity.2.1 (6/100) (8/100) (by norm_num),
   roi_margin_monotonicity.2.2.1 (6/100) (8/100) (by norm_num) (by norm_num)
      (by norm_num),
   roi_margin_monotonicity.2.2.2 (17/100) (by norm_num)⟩

/-- Claim C9: the Technical Indicator Engine never throws on thin history:
for every price history of fewer than 15 bars it returns the neutral
fallback snapshot with trend_strength 0 (inside [-1,1]) and trend_stability
0.5 (inside [0,1]). -/
theorem insufficient_history_fallback (bars : List PriceBar)
    (h : bars.length < 15) :
    (compute_technical_snapshot bars).trend_strength = 0 ∧
    (compute_technical_snapshot bars).trend_stability = 1/2 ∧
    -1 ≤ (compute_technical_snapshot bars).trend_strength ∧
    (compute_technical_snapshot bars).trend_strength ≤ 1 ∧
    0 ≤ (compute_technical_snapshot bars).trend_stability ∧
    (compute_technical_snapshot bars).trend_stability ≤ 1 := by
  unfold compute_technical_snapshot
  rw [if_pos h]
  norm_num

/-- Witness for the C9 theorem: a single-bar history takes the fallback. -/
theorem insufficient_history_fallback_witness :
    (compute_technical_snapshot [⟨1, 1, 1, 1⟩]).trend_strength = 0 ∧
    (compute_technical_snapshot [⟨1, 1, 1, 1⟩]).trend_stability = 1/2 :=
  ⟨(insufficient_history_fallback [⟨1, 1, 1, 1⟩] (by simp)).1,
   (insufficient_history_fallback [⟨1, 1, 1, 1⟩] (by simp)).2.1⟩

/-- Claim C10: when no picks row matches the id, getPickById returns none
and the route answers 404 with success false and the fixed error message;
when a pick exists the route answers 200 with the pick augmented by the
rationale summary of latest created_at (a genuinely maximal one), or a null
rationale when no rationale row exists for that pick. -/
theorem get_pick_route_spec (db : ScreenerDb) (id : ℤ) :
    ((∀ p ∈ db.picks, p.id ≠ id) →
      getPickById db id = Option.none ∧
      get_pick_route db id =
        { status := 404, success := false,
          error := some ("Pick not found"), pick := Option.none }) ∧
    (∀ pw, getPickById db id = some pw →
      get_pick_route db id =
        { status := 200, success := true, error := Option.none,
          pick := some pw } ∧
      pw.rationale = (latest_rationale db id).map RationaleRow.summary ∧
      (∀ ro, latest_rationale db id = some ro →
        ro.pick_id = id ∧ ro ∈ db.rationales ∧
        ∀ r ∈ db.rationales, r.pick_id = id →
          r.created_at ≤ ro.created_at) ∧
      ((∀ r ∈ db.rationales, r.pick_id ≠ id) →
        pw.rationale = Option.none)) := by
  constructor
  · intro hnone
    have hfind : db.picks.find? (fun p => p.id = id) = Option.none := by
      rw [List.find?_eq_none]
      intro p hp
      simpa using hnone p hp
    constructor
    · unfold getPickById
      rw [hfind]
    · unfold get_pick_route getPickById
      rw [hfind]
  · intro pw hpw
    have hroute : get_pick_route db id =
        { status := 200, success := true, error := Option.none,
          pick := some pw } := by
      unfold get_pick_route
      rw [hpw]
    have hrat : pw.rationale =
        (latest_rationale db id).map RationaleRow.summary := by
      unfold getPickById at hpw
      rcases hfind : db.picks.find? (fun p => p.id = id) with _ | p
      · rw [hfind] at hpw
        exact Option.noConfusion hpw
      · rw [hfind] at hpw
        cases hpw
        rfl
    refine ⟨hroute, hrat, fun ro hro => ?_, fun hnor => ?_⟩
    · unfold latest_rationale at hro
      have hmem : ro ∈ db.rationales.filter (fun r => r.pick_id = id) := by
        rcases foldl_pick_better_mem _ _ _ _ hro with hm | hm
        · exact hm
        · exact Option.noConfusion hm
      have hid : ro.pick_id = id := by
        have := (List.mem_filter.mp hmem).2
        simpa using this
      refine ⟨hid, (List.mem_filter.mp hmem).1, fun r hr hrid => ?_⟩
      refine foldl_pick_better_max RationaleRow.created_at _ _ _ hro r ?_
      rw [List.mem_filter]
      exact ⟨hr, by simpa using hrid⟩
    · have hfilter : db.rationales.filter (fun r => r.pick_id = id) = [] := by
        rw [List.filter_eq_nil_iff]
        intro r hr
        simpa using hnor r hr
      have hlat : latest_rationale db id = Option.none := by
        unfold latest_rationale
        rw [hfilter]
        rfl
      rw [hrat, hlat]
      rfl

/-- Witness for the C10 theorem on a concrete two-rationale database: a
missing id yields the 404 body and an existing id yields the 200 body with
the most recent rationale attached. -/
theorem get_pick_route_spec_witness :
    get_pick_route
        ⟨[⟨1, "AAPL", 1/2⟩], [⟨1, "good", 5⟩, ⟨1, "better", 9⟩]⟩ 2 =
      { status := 404, success := false,
        error := some ("Pick not found"), pick := Option.none } ∧
    get_pick_route
        ⟨[⟨1, "AAPL", 1/2⟩], [⟨1, "good", 5⟩, ⟨1, "better", 9⟩]⟩ 1 =
      { status := 200, success := true, error := Option.none,
        pick := some ⟨⟨1, "AAPL", 1/2⟩, some ("better")⟩ } :=
  ⟨((get_pick_route_spec
        ⟨[⟨1, "AAPL", 1/2⟩], [⟨1, "good", 5⟩, ⟨1, "better", 9⟩]⟩ 2).1
      (by intro p hp; simp at hp; simp [hp])).2,
   ((get_pick_route_spec
        ⟨[⟨1, "AAPL", 1/2⟩], [⟨1, "good", 5⟩, ⟨1, "better", 9⟩]⟩ 1).2
      ⟨⟨1, "AAPL", 1/2⟩, some ("better")⟩ (by rfl)).1⟩
